import Mathlib

/-!
Verification of the astro-weekday service core: a shallow embedding of
`flatlib_lite/__init__.py` (the simulated chart engine) and `weekday.py`
(date normalization, zodiac-system selection, transit analysis and match
scoring), with theorems settling the specified properties.

Numbers are modelled as exact rationals (the Python code uses floats but
every quantity involved is an exact decimal / small fraction); machine
strings are modelled as Lean strings processed over their character lists.
-/

namespace AstroWeekday

/-! ## Python-style numeric primitives -/

/-- Python float modulo `x % y` on exact rationals: the remainder with the
sign of the divisor, `x - y * floor (x / y)`; for `y > 0` it lies in `[0, y)`. -/
def qmod (x y : ℚ) : ℚ := x - y * ⌊x / y⌋

/-- Python `int()` truncation of a real number toward zero. -/
def pyTrunc (x : ℚ) : Int := if 0 ≤ x then ⌊x⌋ else ⌈x⌉

/-- Round to the nearest integer, ties to even — Python's `round` on exact values. -/
def roundHalfEven (x : ℚ) : Int :=
  if x - ⌊x⌋ < 1/2 then ⌊x⌋
  else if 1/2 < x - ⌊x⌋ then ⌊x⌋ + 1
  else if ⌊x⌋ % 2 = 0 then ⌊x⌋ else ⌊x⌋ + 1

/-- Python `round(x, 2)`: round to 2 decimal places, ties to even. -/
def round2 (x : ℚ) : ℚ := (roundHalfEven (x * 100) : ℚ) / 100

theorem qmod_nonneg (x : ℚ) {y : ℚ} (hy : 0 < y) : 0 ≤ qmod x y := by
  have h := Int.fract_nonneg (x / y)
  have : qmod x y = y * Int.fract (x / y) := by
    unfold qmod Int.fract
    rw [mul_sub, mul_comm y (x / y), div_mul_cancel₀ x hy.ne']
  rw [this]
  exact mul_nonneg hy.le h

theorem qmod_lt (x : ℚ) {y : ℚ} (hy : 0 < y) : qmod x y < y := by
  have h := Int.fract_lt_one (x / y)
  have heq : qmod x y = y * Int.fract (x / y) := by
    unfold qmod Int.fract
    rw [mul_sub, mul_comm y (x / y), div_mul_cancel₀ x hy.ne']
  rw [heq]
  calc y * Int.fract (x / y) < y * 1 := by exact (mul_lt_mul_left hy).mpr h
  _ = y := mul_one y

theorem qmod_eq_self {x y : ℚ} (h0 : 0 ≤ x) (hy : 0 < y) (hxy : x < y) : qmod x y = x := by
  have hfloor : ⌊x / y⌋ = 0 := by
    rw [Int.floor_eq_zero_iff]
    constructor
    · exact div_nonneg h0 hy.le
    · rw [div_lt_one hy]; exact hxy
  unfold qmod
  rw [hfloor]
  ring

theorem roundHalfEven_ge_floor (x : ℚ) : ⌊x⌋ ≤ roundHalfEven x := by
  unfold roundHalfEven
  split
  · exact le_refl _
  · split
    · exact Int.le_add_one (le_refl _)
    · split
      · exact le_refl _
      · exact Int.le_add_one (le_refl _)

theorem roundHalfEven_le_floor_add_one (x : ℚ) : roundHalfEven x ≤ ⌊x⌋ + 1 := by
  unfold roundHalfEven
  split
  · exact Int.le_add_one (le_refl _)
  · split
    · exact le_refl _
    · split
      · exact Int.le_add_one (le_refl _)
      · exact le_refl _

theorem round2_nonneg {x : ℚ} (hx : 0 ≤ x) : 0 ≤ round2 x := by
  unfold round2
  have h1 : (0 : Int) ≤ ⌊x * 100⌋ := Int.floor_nonneg.mpr (by positivity)
  have h2 : (0 : Int) ≤ roundHalfEven (x * 100) := le_trans h1 (roundHalfEven_ge_floor _)
  have : (0 : ℚ) ≤ (roundHalfEven (x * 100) : ℚ) := by exact_mod_cast h2
  positivity

theorem round2_le_of_lt {x b : ℚ} {n : Int} (hb : b = (n : ℚ)) (hx : x < b) :
    round2 x ≤ b := by
  unfold round2
  have hfl : ⌊x * 100⌋ < n * 100 := by
    rw [Int.floor_lt]
    push_cast
    rw [hb] at hx
    nlinarith
  have h4 : roundHalfEven (x * 100) ≤ n * 100 := by
    have := roundHalfEven_le_floor_add_one (x * 100)
    omega
  have h5 : (roundHalfEven (x * 100) : ℚ) ≤ ((n * 100 : Int) : ℚ) := by exact_mod_cast h4
  rw [hb]
  push_cast at h5 ⊢
  linarith

/-! ## Python-style string primitives, over character lists

Core `String` functions such as `String.splitOn` do not reduce inside the
kernel, so the string processing the Python code performs is embedded as
structural recursion over `String.data`. -/

/-- `str.split(sep)` for a one-character separator, Python semantics
(`"a::b".split(":") = ["a", "", "b"]`, `"".split(":") = [""]`). -/
def splitOnCharAux (sep : Char) : List Char → List Char → List (List Char)
  | [], acc => [acc.reverse]
  | c :: cs, acc =>
    if c = sep then acc.reverse :: splitOnCharAux sep cs []
    else splitOnCharAux sep cs (c :: acc)

def splitOnChar (sep : Char) (l : List Char) : List (List Char) :=
  splitOnCharAux sep l []

/-- Strip leading and trailing whitespace, Python `str.strip()`. -/
def stripChars (l : List Char) : List Char :=
  ((l.dropWhile Char.isWhitespace).reverse.dropWhile Char.isWhitespace).reverse

def digitVal? (c : Char) : Option Nat :=
  if 48 ≤ c.toNat ∧ c.toNat ≤ 57 then some (c.toNat - 48) else none

def digitsToNatAux : List Char → Nat → Option Nat
  | [], acc => some acc
  | c :: cs, acc =>
    match digitVal? c with
    | some d => digitsToNatAux cs (acc * 10 + d)
    | none => none

/-- Python `int(str)` on the decimal strings this service receives: optional
surrounding whitespace, an optional sign, then one or more ASCII digits.
(Python additionally accepts underscore digit separators and non-ASCII
decimal digits; no input the specified behaviour depends on uses those.) -/
def pyIntOfChars? (l : List Char) : Option Int :=
  match stripChars l with
  | [] => none
  | '-' :: rest =>
    if rest = [] then none else (digitsToNatAux rest 0).map (fun n => -(n : Int))
  | '+' :: rest =>
    if rest = [] then none else (digitsToNatAux rest 0).map (fun n => (n : Int))
  | t => (digitsToNatAux t 0).map (fun n => (n : Int))

def pyInt? (s : String) : Option Int := pyIntOfChars? s.data

/-- ASCII lower-casing, `str.lower()` on the ASCII identifiers involved. -/
def asciiLowerChar (c : Char) : Char :=
  if 65 ≤ c.toNat ∧ c.toNat ≤ 90 then Char.ofNat (c.toNat + 32) else c

def lowerChars (l : List Char) : List Char := l.map asciiLowerChar

/-- Do the characters `pre` occur at the head of `l`? -/
def charsStartWith : List Char → List Char → Bool
  | [], _ => true
  | _ :: _, [] => false
  | p :: ps, c :: cs => p = c && charsStartWith ps cs

/-- Python `needle in hay` substring containment. -/
def charsContain (needle hay : List Char) : Bool :=
  charsStartWith needle hay ||
    match hay with
    | [] => false
    | _ :: cs => charsContain needle cs

/-! ## Embedding of `src/flatlib_lite/__init__.py` -/

def SIGNS_THAI : List String :=
  ["เมษ", "พฤษภ", "มิถุน", "กรกฎ", "สิงห์", "กันย์",
   "ตุล", "พิจิก", "ธนู", "มังกร", "กุมภ์", "มีน"]

def SIGNS_EN : List String :=
  ["Aries", "Taurus", "Gemini", "Cancer", "Leo", "Virgo",
   "Libra", "Scorpio", "Sagittarius", "Capricorn", "Aquarius", "Pisces"]

def PLANETS : List String :=
  ["Sun", "Moon", "Mercury", "Venus", "Mars", "Jupiter", "Saturn"]

/-- One chart entry: the stored sign name and stored (rounded) longitude. -/
structure ChartPoint where
  sign : String
  lon : ℚ
deriving DecidableEq, Repr

/-- `_solar_longitude(year, month, day, zodiac_system)`: the year argument is
accepted and ignored, exactly as in the source. -/
def solar_longitude (year month day : Int) (zodiac_system : String) : ℚ :=
  let base : Int := (month * 30 + day) % 365
  let tropical_long : ℚ := (base : ℚ) * 360 / 365.25
  if zodiac_system = "sidereal" then qmod (tropical_long - 23.0) 360
  else qmod tropical_long 360

/-- `speed_factors` from `_planet_position`. -/
def speed_factors : List ℚ := [1.0, 13.2, 4.7, 1.6, 0.8, 0.2, 0.1]

/-- `_planet_position(base_long, planet_index, offset)`. -/
def planet_position (base_long : ℚ) (planet_index : Nat) (offset : ℚ) : ℚ :=
  qmod (base_long * speed_factors.getD planet_index 0 + offset * 5) 360

/-- `_get_sign_name(longitude, zodiac_system)`: `int(longitude / 30) % 12`
indexes the Thai table for sidereal charts and the Western table otherwise. -/
def get_sign_name (longitude : ℚ) (zodiac_system : String) : String :=
  let idx := pyTrunc (longitude / 30) % 12
  (if zodiac_system = "sidereal" then SIGNS_THAI else SIGNS_EN).getD idx.toNat ""

/-- The `try: hh, mm = [int(x) for x in time.split(":")] except: hh, mm = 0, 0`
step of `compute_chart`: any string that does not split into exactly two
`int()`-parsable groups yields `(0, 0)` instead of an error. -/
def parse_time (time : String) : Int × Int :=
  match (splitOnChar ':' time.data).map pyIntOfChars? with
  | [some hh, some mm] => (hh, mm)
  | _ => (0, 0)

/-- `compute_chart(d, time, timezone, lat, lon, zodiac_system)`: the chart as
an insertion-ordered association list, 7 planets then the Ascendant. The
`timezone` and `lon` parameters are accepted and ignored, and only the month
and day of the date are used, exactly as in the source. -/
def compute_chart (year month day : Int) (time timezone : String) (lat lon : ℚ)
    (zodiac_system : String) : List (String × ChartPoint) :=
  let hm := parse_time time
  let offset : ℚ := ((hm.1 * 60 + hm.2 : Int) : ℚ) / 60
  let base_long := solar_longitude year month day zodiac_system
  let planets := PLANETS.enum.map (fun ip =>
    let lon_val := planet_position base_long ip.1 offset
    (ip.2, ({ sign := get_sign_name lon_val zodiac_system,
              lon := round2 lon_val } : ChartPoint)))
  let asc_lon := qmod (base_long + offset * (lat / 10)) 360
  planets ++ [("Ascendant", { sign := get_sign_name asc_lon zodiac_system,
                              lon := round2 asc_lon })]

/-! ## Embedding of `src/weekday.py`: the date normalizer -/

/-- The user-input validation failures `parse_ddmmyyyy_th` can raise:
`emptyInput`, `badFormat` and `badNumbers` are `HTTPException(400)`s for a
blank input, a wrong group count and non-numeric groups; `badYearRange` the
400 for a year outside both accepted eras; `valueError` the *uncaught*
`ValueError` escaping the `date(year_ce, month, 28)` fallback. -/
inductive DateError where
  | emptyInput
  | badFormat
  | badNumbers
  | badYearRange
  | valueError
deriving DecidableEq, Repr

/-- The dictionary `parse_ddmmyyyy_th` returns: `year`/`month`/`day` are the
fields of its `date_obj`, the rest the other entries. -/
structure NormalizedDate where
  year : Int
  month : Int
  day : Int
  calendar : String
  year_ce : Int
  year_be : Int
deriving DecidableEq, Repr

/-- Gregorian leap-year rule, as `datetime.date` applies it. -/
def isLeap (y : Int) : Bool := y % 4 = 0 && (y % 100 ≠ 0 || y % 400 = 0)

def daysInMonth (y m : Int) : Int :=
  if m = 2 then (if isLeap y then 29 else 28)
  else if m = 4 ∨ m = 6 ∨ m = 9 ∨ m = 11 then 30
  else 31

/-- Would `datetime.date(y, m, d)` construct without raising `ValueError`? -/
def pyDateValid (y m d : Int) : Bool :=
  1 ≤ y && y ≤ 9999 && 1 ≤ m && m ≤ 12 && 1 ≤ d && d ≤ daysInMonth y m

/-- The tail of `parse_ddmmyyyy_th` after the era is decided: derive
`year_ce`/`year_be`, then `try: d = date(year_ce, month, day) except
ValueError: d = date(year_ce, month, 28)` — the fallback constructor's own
`ValueError` is not caught. -/
def mkNormalized (is_be : Bool) (year month day : Int) : Except DateError NormalizedDate :=
  let year_ce := cond is_be (year - 543) year
  let year_be := cond is_be year (year + 543)
  let cal := cond is_be "BE" "CE"
  if pyDateValid year_ce month day then
    .ok ⟨year_ce, month, day, cal, year_ce, year_be⟩
  else if pyDateValid year_ce month 28 then
    .ok ⟨year_ce, month, 28, cal, year_ce, year_be⟩
  else .error .valueError

/-- The year normalization and era decision of `parse_ddmmyyyy_th`: a
two-digit year is promoted by 2500, then [1800,2100] is read as CE and
[2400,2700] as BE; anything else is the year-range 400. -/
def normalize_dmy (day month year : Int) : Except DateError NormalizedDate :=
  let year := if year < 100 then year + 2500 else year
  if 1800 ≤ year ∧ year ≤ 2100 then mkNormalized false year month day
  else if 2400 ≤ year ∧ year ≤ 2700 then mkNormalized true year month day
  else .error .badYearRange

/-- The string stage of `parse_ddmmyyyy_th`: strip, rewrite `-`, `.` and
space separators to `/`, split, drop empty groups, require exactly three
`int()`-parsable groups, and order them YEAR/MONTH/DAY when the first group
has exactly 4 characters and DAY/MONTH/YEAR otherwise. Returns
`(day, month, year)`. -/
def parse_groups (s : String) : Except DateError (Int × Int × Int) :=
  let t := stripChars s.data
  if t = [] then .error .emptyInput
  else
    let u := t.map (fun c => if c = '-' ∨ c = '.' ∨ c = ' ' then '/' else c)
    let parts := (splitOnChar '/' u).filter (· ≠ [])
    match parts with
    | [a, b, c] =>
      match pyIntOfChars? a, pyIntOfChars? b, pyIntOfChars? c with
      | some x, some y, some z =>
        if a.length = 4 then .ok (z, y, x) else .ok (x, y, z)
      | _, _, _ => .error .badNumbers
    | _ => .error .badFormat

/-- `parse_ddmmyyyy_th(s)`, the whole normalizer. -/
def parse_ddmmyyyy_th (s : String) : Except DateError NormalizedDate :=
  match parse_groups s with
  | .ok (day, month, year) => normalize_dmy day month year
  | .error e => .error e

/-! ## Embedding of `src/weekday.py`: zodiac-system selection

The geopy `Nominatim.reverse` lookup is an external collaborator; it enters
the embedding as an `Option String` argument: `some country` a successful
lookup's lower-casable country field (the empty string when the address has
no country), `none` any failure — timeout, no result, or any exception,
all absorbed by the source's `except Exception` arm. -/

def fastpath_cities : List String :=
  ["bangkok", "kolkata", "yangon", "colombo", "phnom_penh",
   "vientiane", "hanoi", "jakarta", "kathmandu", "dhaka"]

def sidereal_countries : List String :=
  ["thailand", "laos", "myanmar", "burma", "cambodia",
   "india", "sri lanka", "nepal", "bangladesh"]

/-- `detect_zodiac_system(lat, lon, timezone)`; `geocode` stands for the
outcome of the geocoding call, which only happens when no fast-path city
matches. -/
def detect_zodiac_system (lat lon : ℚ) (timezone : String) (geocode : Option String) :
    String :=
  let tz_lower := lowerChars timezone.data
  if fastpath_cities.any (fun x => charsContain x.data tz_lower) then "sidereal"
  else
    match geocode with
    | some country =>
      if sidereal_countries.any (fun c => charsContain c.data (lowerChars country.data))
      then "sidereal" else "tropical"
    | none => if charsContain "asia/".data tz_lower then "sidereal" else "tropical"

/-! ## Embedding of `src/weekday.py`: transit analysis and match scoring -/

/-- Dictionary lookup `chart[p]` / `p in chart` over the association-list
model of a chart. -/
def lookup_point (chart : List (String × ChartPoint)) (p : String) : Option ChartPoint :=
  (chart.find? (fun e => e.1 == p)).map (fun e => e.2)

/-- One iteration of the analysis loop of `get_astro_transit`: if the natal
body `e` is present in the transit chart, fold the absolute longitude
difference to the shorter angular distance and append the conjunction /
opposition message, if any. -/
def transit_step (transit : List (String × ChartPoint)) (acc : List String)
    (e : String × ChartPoint) : List String :=
  match lookup_point transit e.1 with
  | some tv =>
    let diff0 := |e.2.lon - tv.lon|
    let diff := if diff0 ≤ 180 then diff0 else 360 - diff0
    if diff ≤ 10 then acc ++ [e.1 ++ ": ดาวจรทับดาวเดิม (แรง)"]
    else if 170 ≤ diff ∧ diff ≤ 190 then acc ++ [e.1 ++ ": ดาวจรเล็งดาวเดิม (กดดัน)"]
    else acc
  | none => acc

/-- The analysis loop of `get_astro_transit`, over the natal chart in order. -/
def transit_interactions (natal transit : List (String × ChartPoint)) : List String :=
  natal.foldl (transit_step transit) []

def match_bodies : List String := ["Sun", "Moon", "Venus", "Mars"]

/-- One iteration of the scoring loop of `get_astro_match`: `none` models the
`KeyError` Python would raise if either chart lacked the body (charts
produced by `compute_chart` always have all four). -/
def match_step (c1 c2 : List (String × ChartPoint)) (acc : Option (Int × List String))
    (p : String) : Option (Int × List String) :=
  match acc with
  | none => none
  | some sc =>
    match lookup_point c1 p, lookup_point c2 p with
    | some v1, some v2 =>
      if v1.sign = v2.sign then
        some (sc.1 + 25, sc.2 ++ [p ++ ": อยู่ราศีเดียวกัน (เข้าใจกันง่าย)"])
      else if |v1.lon - v2.lon| < 30 then
        some (sc.1 + 15, sc.2 ++ [p ++ ": ระยะใกล้กัน (สัมพันธ์ดี)"])
      else some (sc.1, sc.2 ++ [p ++ ": ต่างราศี (ต้องปรับตัว)"])
    | _, _ => none

/-- The scoring loop of `get_astro_match` plus the final `min(score, 100)`. -/
def astro_match (c1 c2 : List (String × ChartPoint)) : Option (Int × List String) :=
  (match_bodies.foldl (match_step c1 c2) (some (0, []))).map (fun sc => (min sc.1 100, sc.2))

/-! ## Spec-side formulas (C1)

These definitions transcribe the specification's wording of the ChartEngine
algorithm; the C1 theorem then proves the code's chart equal to them. -/

/-- Modelled from the spec: `base = ((month*30 + day) mod 365) * (360/365.25)`,
with the fixed 23.0° precession offset subtracted and the result wrapped into
[0,360) when the system is sidereal. -/
def spec_base (month day : Int) (sidereal : Bool) : ℚ :=
  let base : ℚ := (((month * 30 + day) % 365 : Int) : ℚ) * (360 / 365.25)
  if sidereal then qmod (base - 23.0) 360 else base

/-- Modelled from the spec: `timeOffsetHours = hours + minutes/60`. -/
def spec_time_offset (hh mm : Int) : ℚ := (hh : ℚ) + (mm : ℚ) / 60

/-- Modelled from the spec: the fixed per-body speed multiplier table. -/
def spec_speed : List ℚ := [1.0, 13.2, 4.7, 1.6, 0.8, 0.2, 0.1]

/-- Modelled from the spec: `longitude = (base * speedFactor[i] + timeOffsetHours * 5) mod 360`. -/
def spec_body_lon (B T : ℚ) (i : Nat) : ℚ := qmod (B * spec_speed.getD i 0 + T * 5) 360

/-- Modelled from the spec: the Ascendant longitude
`(base + timeOffsetHours * (latitude/10)) mod 360`. -/
def spec_asc_lon (B T lat : ℚ) : ℚ := qmod (B + T * (lat / 10)) 360

theorem base_int_bounds (month day : Int) : 0 ≤ (month * 30 + day) % 365 ∧ (month * 30 + day) % 365 < 365 :=
  ⟨Int.emod_nonneg _ (by norm_num), Int.emod_lt_of_pos _ (by norm_num)⟩

/-- The code's `_solar_longitude` computes exactly the spec's base formula
(for the tropical case the final `% 360` is the identity because the value
already lies in [0, 360)). -/
theorem solar_longitude_eq_spec_base (year month day : Int) (sys : String) :
    solar_longitude year month day sys = spec_base month day (sys == "sidereal") := by
  obtain ⟨hb0, hb1⟩ := base_int_bounds month day
  have h0 : (0 : ℚ) ≤ (((month * 30 + day) % 365 : Int) : ℚ) := by exact_mod_cast hb0
  have h1 : (((month * 30 + day) % 365 : Int) : ℚ) ≤ 364 := by
    have : (month * 30 + day) % 365 ≤ 364 := by omega
    exact_mod_cast this
  unfold solar_longitude spec_base
  by_cases hs : sys = "sidereal"
  · simp only [hs, if_pos rfl, beq_self_eq_true, if_pos]
    congr 1
    norm_num
    ring
  · have hbeq : (sys == "sidereal") = false := by
      simp [hs]
    simp only [if_neg hs, hbeq, Bool.false_eq_true, if_neg, if_false]
    rw [qmod_eq_self]
    · norm_num; ring
    · positivity
    · norm_num
    · rw [div_lt_iff₀ (by norm_num : (0 : ℚ) < 365.25)]
      nlinarith

/-- The code's `offset = (hh * 60 + mm) / 60.0` is the spec's
`hours + minutes/60`. -/
theorem offset_eq_spec (hh mm : Int) :
    ((hh * 60 + mm : Int) : ℚ) / 60 = spec_time_offset hh mm := by
  unfold spec_time_offset
  push_cast
  ring

/-- C1: for every date, time string, latitude, longitude and sign system,
`compute_chart` stores exactly the longitudes the spec's formulas give: body i
gets `(base * speedFactor[i] + timeOffsetHours*5) mod 360` and the Ascendant
`(base + timeOffsetHours*(latitude/10)) mod 360`, each rounded to 2 decimal
places, where `base` is the spec's (sidereal-adjusted) base and
`timeOffsetHours = hours + minutes/60`; the time string parses as HH:MM via
`int()` on the two `:`-separated groups, any other shape yielding 00:00
without an error. -/
theorem chart_engine_follows_spec_formulas (year month day : Int)
    (time timezone : String) (lat lon : ℚ) (sys : String) :
    ((compute_chart year month day time timezone lat lon sys).map (fun e => e.2.lon) =
      ((List.range 7).map (fun i =>
          round2 (spec_body_lon (spec_base month day (sys == "sidereal"))
            (spec_time_offset (parse_time time).1 (parse_time time).2) i))) ++
        [round2 (spec_asc_lon (spec_base month day (sys == "sidereal"))
          (spec_time_offset (parse_time time).1 (parse_time time).2) lat)]) ∧
    (∀ hh mm : Int, (splitOnChar ':' time.data).map pyIntOfChars? = [some hh, some mm] →
      parse_time time = (hh, mm)) ∧
    ((∀ hh mm : Int, (splitOnChar ':' time.data).map pyIntOfChars? ≠ [some hh, some mm]) →
      parse_time time = (0, 0)) := by
  refine ⟨?_, ?_, ?_⟩
  · have henum : PLANETS.enum = [(0, "Sun"), (1, "Moon"), (2, "Mercury"), (3, "Venus"),
        (4, "Mars"), (5, "Jupiter"), (6, "Saturn")] := rfl
    have hrange : List.range 7 = [0, 1, 2, 3, 4, 5, 6] := rfl
    simp only [compute_chart, henum, hrange, List.map_append, List.map_cons, List.map_nil,
      solar_longitude_eq_spec_base, offset_eq_spec, planet_position, spec_body_lon,
      spec_asc_lon, speed_factors, spec_speed]
  · intro hh mm h
    unfold parse_time
    rw [h]
  · intro h
    unfold parse_time
    rcases heq : (splitOnChar ':' time.data).map pyIntOfChars? with _ | ⟨a, tl⟩
    · rfl
    rcases tl with _ | ⟨b, tl2⟩
    · cases a <;> rfl
    rcases tl2 with _ | ⟨c, tl3⟩
    · cases a <;> cases b <;> first
        | rfl
        | (exfalso; exact h _ _ heq)
    · cases a <;> cases b <;> rfl

/-- C9: the chart does not depend on the timezone argument, the longitude
argument, or the year of the date — the source accepts and ignores all
three — so two calls differing only there give identical charts. -/
theorem compute_chart_ignores_year_timezone_lon (year1 year2 month day : Int)
    (time timezone1 timezone2 : String) (lat lon1 lon2 : ℚ) (sys : String) :
    compute_chart year1 month day time timezone1 lat lon1 sys =
      compute_chart year2 month day time timezone2 lat lon2 sys := rfl

/-! ## Chart structure lemmas (C4, C8, C10) -/

/-- The time offset `compute_chart` derives from its time string. -/
def chart_offset (t : String) : ℚ :=
  (((parse_time t).1 * 60 + (parse_time t).2 : Int) : ℚ) / 60

/-- The raw (pre-rounding) Ascendant longitude. -/
def asc_position (B T lat : ℚ) : ℚ := qmod (B + T * (lat / 10)) 360

/-- `compute_chart` written out as its explicit 8-entry table. -/
theorem compute_chart_eq (year month day : Int) (time timezone : String)
    (lat lon : ℚ) (sys : String) :
    compute_chart year month day time timezone lat lon sys =
      [("Sun", ⟨get_sign_name (planet_position (solar_longitude year month day sys) 0
          (chart_offset time)) sys,
        round2 (planet_position (solar_longitude year month day sys) 0 (chart_offset time))⟩),
       ("Moon", ⟨get_sign_name (planet_position (solar_longitude year month day sys) 1
          (chart_offset time)) sys,
        round2 (planet_position (solar_longitude year month day sys) 1 (chart_offset time))⟩),
       ("Mercury", ⟨get_sign_name (planet_position (solar_longitude year month day sys) 2
          (chart_offset time)) sys,
        round2 (planet_position (solar_longitude year month day sys) 2 (chart_offset time))⟩),
       ("Venus", ⟨get_sign_name (planet_position (solar_longitude year month day sys) 3
          (chart_offset time)) sys,
        round2 (planet_position (solar_longitude year month day sys) 3 (chart_offset time))⟩),
       ("Mars", ⟨get_sign_name (planet_position (solar_longitude year month day sys) 4
          (chart_offset time)) sys,
        round2 (planet_position (solar_longitude year month day sys) 4 (chart_offset time))⟩),
       ("Jupiter", ⟨get_sign_name (planet_position (solar_longitude year month day sys) 5
          (chart_offset time)) sys,
        round2 (planet_position (solar_longitude year month day sys) 5 (chart_offset time))⟩),
       ("Saturn", ⟨get_sign_name (planet_position (solar_longitude year month day sys) 6
          (chart_offset time)) sys,
        round2 (planet_position (solar_longitude year month day sys) 6 (chart_offset time))⟩),
       ("Ascendant", ⟨get_sign_name (asc_position (solar_longitude year month day sys)
          (chart_offset time) lat) sys,
        round2 (asc_position (solar_longitude year month day sys) (chart_offset time) lat)⟩)] :=
  rfl

/-- Every stored chart entry is the 2-decimal rounding of a raw longitude in
[0, 360), with its sign name computed by `_get_sign_name` from that *raw*
(pre-rounding) value. -/
theorem chart_point_raw (year month day : Int) (time timezone : String)
    (lat lon : ℚ) (sys : String) :
    (compute_chart year month day time timezone lat lon sys).Forall
      (fun e => ∃ raw : ℚ, e.2.sign = get_sign_name raw sys ∧ e.2.lon = round2 raw ∧
        0 ≤ raw ∧ raw < 360) := by
  have h360 : (0 : ℚ) < 360 := by norm_num
  rw [compute_chart_eq]
  simp only [List.Forall]
  exact ⟨⟨_, rfl, rfl, qmod_nonneg _ h360, qmod_lt _ h360⟩,
    ⟨_, rfl, rfl, qmod_nonneg _ h360, qmod_lt _ h360⟩,
    ⟨_, rfl, rfl, qmod_nonneg _ h360, qmod_lt _ h360⟩,
    ⟨_, rfl, rfl, qmod_nonneg _ h360, qmod_lt _ h360⟩,
    ⟨_, rfl, rfl, qmod_nonneg _ h360, qmod_lt _ h360⟩,
    ⟨_, rfl, rfl, qmod_nonneg _ h360, qmod_lt _ h360⟩,
    ⟨_, rfl, rfl, qmod_nonneg _ h360, qmod_lt _ h360⟩,
    ⟨_, rfl, rfl, qmod_nonneg _ h360, qmod_lt _ h360⟩⟩

/-- C4 (amended): every stored longitude lies in the closed interval
[0, 360]: the raw longitudes lie in [0, 360), but rounding to 2 decimal
places can carry a raw value of 359.995 or more up to exactly 360.00, so the
half-open bound claimed for the stored values does not survive the rounding. -/
theorem chart_lons_in_closed_range (year month day : Int) (time timezone : String)
    (lat lon : ℚ) (sys : String) :
    (compute_chart year month day time timezone lat lon sys).Forall
      (fun e => 0 ≤ e.2.lon ∧ e.2.lon ≤ 360) := by
  refine List.Forall.imp ?_ (chart_point_raw year month day time timezone lat lon sys)
  rintro e ⟨raw, _, hlon, h0, h1⟩
  rw [hlon]
  exact ⟨round2_nonneg h0, round2_le_of_lt (by norm_num : (360 : ℚ) = ((360 : Int) : ℚ)) h1⟩

/-- The latitude that steers the Ascendant's raw longitude to 359.999 for the
date 2025-01-01 at 01:00 under the tropical system. -/
def c4_lat : ℚ := 10 * (359999/1000 - 14880/487)

set_option maxRecDepth 4000 in
/-- At the `c4_lat` input the chart is this explicit table; note the stored
Ascendant longitude of exactly 360 (raw 359.999 rounded to 2 places). -/
theorem chart_at_c4_input :
    compute_chart 2025 1 1 "1:00" "Asia/Bangkok" c4_lat 100 "tropical"
      = [("Sun", ⟨"Taurus", 711/20⟩), ("Moon", ⟨"Taurus", 1208/25⟩),
         ("Mercury", ⟨"Leo", 14861/100⟩), ("Venus", ⟨"Taurus", 5389/100⟩),
         ("Mars", ⟨"Aries", 736/25⟩), ("Jupiter", ⟨"Aries", 1111/100⟩),
         ("Saturn", ⟨"Aries", 403/50⟩), ("Ascendant", ⟨"Pisces", 360⟩)] := by
  have ht : parse_time "1:00" = (1, 0) := rfl
  norm_num +decide [compute_chart, ht, c4_lat, solar_longitude, planet_position,
    get_sign_name, qmod, round2, roundHalfEven, pyTrunc, speed_factors, PLANETS,
    SIGNS_EN, List.enum, List.enumFrom]
  simp only [Int.fract]
  norm_num

/-- C4 counterexample: at this finite numeric input the Ascendant's stored
longitude is exactly 360, outside [0, 360). -/
theorem chart_lon_360_counterexample :
    ¬ (compute_chart 2025 1 1 "1:00" "Asia/Bangkok" c4_lat 100 "tropical").Forall
        (fun e => 0 ≤ e.2.lon ∧ e.2.lon < 360) := by
  rw [chart_at_c4_input]
  simp only [List.Forall]
  intro h
  have := h.2.2.2.2.2.2.2.2
  norm_num at this

/-- For a nonnegative longitude, `int(longitude/30)` truncation coincides
with the floor the spec states. -/
theorem get_sign_name_floor (x : ℚ) (sys : String) (h0 : 0 ≤ x) :
    get_sign_name x sys =
      (if sys = "sidereal" then SIGNS_THAI else SIGNS_EN).getD (⌊x / 30⌋ % 12).toNat "" := by
  unfold get_sign_name pyTrunc
  rw [if_pos (by positivity : (0 : ℚ) ≤ x / 30)]

/-- The sign name always comes from the active system's 12-name table. -/
theorem get_sign_name_mem (x : ℚ) (sys : String) :
    get_sign_name x sys ∈ (if sys = "sidereal" then SIGNS_THAI else SIGNS_EN) := by
  unfold get_sign_name
  have hlen : (if sys = "sidereal" then SIGNS_THAI else SIGNS_EN).length = 12 := by
    split <;> rfl
  have h1 : 0 ≤ pyTrunc (x / 30) % 12 := Int.emod_nonneg _ (by norm_num)
  have h2 : pyTrunc (x / 30) % 12 < 12 := Int.emod_lt_of_pos _ (by norm_num)
  have hidx : (pyTrunc (x / 30) % 12).toNat <
      (if sys = "sidereal" then SIGNS_THAI else SIGNS_EN).length := by
    rw [hlen]; omega
  rw [List.getD_eq_getElem?_getD, List.getElem?_eq_getElem hidx]
  exact List.getElem_mem hidx

/-- C8 (amended): every chart has exactly 8 entries (the 7 bodies plus the
Ascendant); every entry's sign name is drawn from the table matching the
chart's sign system (Thai for sidereal, Western otherwise), and equals that
table at index `floor(raw/30) mod 12` for the entry's *raw* (pre-rounding)
longitude, of which the stored longitude is the 2-decimal rounding. With
respect to the *stored* (rounded) longitude the index identity can fail —
see the counterexample. -/
theorem chart_sign_invariant (year month day : Int) (time timezone : String)
    (lat lon : ℚ) (sys : String) :
    (compute_chart year month day time timezone lat lon sys).length = 8 ∧
    (compute_chart year month day time timezone lat lon sys).Forall
      (fun e => ∃ raw : ℚ, e.2.lon = round2 raw ∧ 0 ≤ raw ∧ raw < 360 ∧
        e.2.sign = (if sys = "sidereal" then SIGNS_THAI else SIGNS_EN).getD
          (⌊raw / 30⌋ % 12).toNat "" ∧
        e.2.sign ∈ (if sys = "sidereal" then SIGNS_THAI else SIGNS_EN)) := by
  constructor
  · rw [compute_chart_eq]
    rfl
  · refine List.Forall.imp ?_ (chart_point_raw year month day time timezone lat lon sys)
    rintro e ⟨raw, hsign, hlon, h0, h1⟩
    exact ⟨raw, hlon, h0, h1, by rw [hsign, get_sign_name_floor _ _ h0],
      by rw [hsign]; exact get_sign_name_mem _ _⟩

/-- The latitude that steers the Ascendant's raw longitude to 29.998 for the
date 2025-01-01 at 01:00 under the tropical system. -/
def c8_lat : ℚ := 10 * (14999/500 - 14880/487)

set_option maxRecDepth 4000 in
/-- At the `c8_lat` input the chart is this explicit table: the Ascendant's
sign was computed from the raw longitude 29.998 (index 0, "Aries") but the
stored longitude rounds up to 30.00, which lies in sign index 1. -/
theorem chart_at_c8_input :
    compute_chart 2025 1 1 "1:00" "Asia/Bangkok" c8_lat 100 "tropical"
      = [("Sun", ⟨"Taurus", 711/20⟩), ("Moon", ⟨"Taurus", 1208/25⟩),
         ("Mercury", ⟨"Leo", 14861/100⟩), ("Venus", ⟨"Taurus", 5389/100⟩),
         ("Mars", ⟨"Aries", 736/25⟩), ("Jupiter", ⟨"Aries", 1111/100⟩),
         ("Saturn", ⟨"Aries", 403/50⟩), ("Ascendant", ⟨"Aries", 30⟩)] := by
  have ht : parse_time "1:00" = (1, 0) := rfl
  norm_num +decide [compute_chart, ht, c8_lat, solar_longitude, planet_position,
    get_sign_name, qmod, round2, roundHalfEven, pyTrunc, speed_factors, PLANETS,
    SIGNS_EN, List.enum, List.enumFrom]
  simp only [Int.fract]
  norm_num

/-- C8 counterexample: in this tropical chart the Ascendant stores sign
"Aries" with stored longitude 30.00, but the table at
`floor(30.00/30) mod 12 = 1` is "Taurus" — the sign-index invariant fails
with respect to the stored longitude. -/
theorem chart_sign_stored_counterexample :
    ¬ (compute_chart 2025 1 1 "1:00" "Asia/Bangkok" c8_lat 100 "tropical").Forall
        (fun e => e.2.sign = SIGNS_EN.getD (⌊e.2.lon / 30⌋ % 12).toNat "") := by
  rw [chart_at_c8_input]
  simp only [List.Forall]
  intro h
  have hasc := h.2.2.2.2.2.2.2
  rw [show ((30 : ℚ) / 30) = 1 by norm_num] at hasc
  norm_num [SIGNS_EN] at hasc
  exact absurd hasc (by decide)

/-! ## Date-normalizer theorems (C2, C3) -/

/-- The clamp target `date(year_ce, month, 28)` is a valid date for every
month 1..12 and every year `datetime` accepts. -/
theorem pyDateValid_28 (y m : Int) (hy1 : 1 ≤ y) (hy2 : y ≤ 9999)
    (hm1 : 1 ≤ m) (hm2 : m ≤ 12) : pyDateValid y m 28 = true := by
  unfold pyDateValid daysInMonth
  simp only [Bool.and_eq_true, decide_eq_true_eq]
  split_ifs <;> simp_all <;> omega

theorem mkNormalized_be_ce (b : Bool) (yy m d : Int) (r : NormalizedDate)
    (h : mkNormalized b yy m d = .ok r) : r.year_be = r.year_ce + 543 := by
  cases b <;> simp only [mkNormalized, cond] at h <;>
    split_ifs at h <;> simp only [Except.ok.injEq] at h <;>
    first
      | (subst h; simp; try omega)
      | exact nomatch h

/-- Any successfully normalized date satisfies `year_be = year_ce + 543`. -/
theorem normalize_dmy_be_ce (d m y : Int) (r : NormalizedDate)
    (h : normalize_dmy d m y = .ok r) : r.year_be = r.year_ce + 543 := by
  simp only [normalize_dmy] at h
  split_ifs at h <;>
    first
      | exact mkNormalized_be_ce _ _ _ _ r h
      | exact nomatch h

/-- C2 (amended): when the three parsed groups carry an accepted year *and a
month between 1 and 12*, an invalid (year, month, day) combination is clamped
to day 28 with the year and month unchanged and no error. (For a month
outside 1..12 the fallback `date(year_ce, month, 28)` itself raises — see the
counterexample — so the claim's unconditional clamp guarantee fails.) -/
theorem clamp_to_28 (s : String) (d m y py yce : Int)
    (hg : parse_groups s = .ok (d, m, y))
    (hpy : py = if y < 100 then y + 2500 else y)
    (hyce : yce = if 2400 ≤ py then py - 543 else py)
    (hm1 : 1 ≤ m) (hm2 : m ≤ 12)
    (hacc : (1800 ≤ py ∧ py ≤ 2100) ∨ (2400 ≤ py ∧ py ≤ 2700))
    (hinv : pyDateValid yce m d = false) :
    parse_ddmmyyyy_th s = .ok ⟨yce, m, 28, if 2400 ≤ py then "BE" else "CE", yce, yce + 543⟩ := by
  have hstep : parse_ddmmyyyy_th s = normalize_dmy d m y := by
    unfold parse_ddmmyyyy_th
    rw [hg]
  rw [hstep]
  simp only [normalize_dmy]
  rw [← hpy]
  rcases hacc with ⟨h1, h2⟩ | ⟨h1, h2⟩
  · have hno : ¬ 2400 ≤ py := by omega
    rw [if_pos ⟨h1, h2⟩]
    simp only [mkNormalized, cond]
    rw [hyce, if_neg hno] at hinv
    rw [if_neg (by simp [hinv] : ¬ pyDateValid py m d = true),
      if_pos (pyDateValid_28 py m (by omega) (by omega) hm1 hm2)]
    simp only [Except.ok.injEq]
    rw [hyce]
    simp [hno]
  · have hyes : 2400 ≤ py := h1
    rw [if_neg (by omega : ¬ (1800 ≤ py ∧ py ≤ 2100)), if_pos ⟨h1, h2⟩]
    simp only [mkNormalized, cond]
    rw [hyce, if_pos hyes] at hinv
    rw [if_neg (by simp [hinv] : ¬ pyDateValid (py - 543) m d = true),
      if_pos (pyDateValid_28 (py - 543) m (by omega) (by omega) hm1 hm2)]
    simp only [Except.ok.injEq]
    rw [hyce]
    simp [hyes]

/-- C2 witness: the spec's own example — Feb 30 of BE 2568 clamps to day 28,
month 2, CE year 2025, with no error. -/
theorem clamp_to_28_witness :
    parse_ddmmyyyy_th "30/02/2568" = .ok ⟨2025, 2, 28, "BE", 2025, 2568⟩ := by
  have h := clamp_to_28 "30/02/2568" 30 2 2568 2568 2025 rfl (by decide)
    (by decide) (by decide) (by decide) (by decide) (by decide)
  simpa using h

/-- C2 counterexample: "5/13/2568" parses into three numeric groups with an
accepted year, and (2025, 13, 5) is not a valid calendar date, yet the
normalizer does not return day 28 — the clamp fallback `date(2025, 13, 28)`
raises an uncaught `ValueError`. -/
theorem clamp_month_13_raises :
    parse_ddmmyyyy_th "5/13/2568" = .error .valueError := rfl

/-- C3: every accepted date satisfies `yearBE = yearCE + 543`; a normalized
year outside both [1800,2100] and [2400,2700] fails with the year-range
error; and a Buddhist-Era year is kept verbatim as `yearBE` with
`yearCE = year - 543`. -/
theorem dual_calendar_years (s : String) (d m y : Int) :
    (∀ r, parse_ddmmyyyy_th s = .ok r → r.year_be = r.year_ce + 543) ∧
    (¬ ((1800 ≤ (if y < 100 then y + 2500 else y) ∧ (if y < 100 then y + 2500 else y) ≤ 2100) ∨
        (2400 ≤ (if y < 100 then y + 2500 else y) ∧ (if y < 100 then y + 2500 else y) ≤ 2700)) →
      normalize_dmy d m y = .error .badYearRange) ∧
    ((2400 ≤ (if y < 100 then y + 2500 else y) ∧ (if y < 100 then y + 2500 else y) ≤ 2700) →
      ∀ r, normalize_dmy d m y = .ok r →
        r.year_ce = (if y < 100 then y + 2500 else y) - 543 ∧
        r.year_be = (if y < 100 then y + 2500 else y)) := by
  refine ⟨?_, ?_, ?_⟩
  · intro r h
    unfold parse_ddmmyyyy_th at h
    rcases hpg : parse_groups s with e | ⟨d', m', y'⟩
    · rw [hpg] at h
      exact nomatch h
    · rw [hpg] at h
      exact normalize_dmy_be_ce d' m' y' r h
  · intro hout
    simp only [normalize_dmy]
    set Y := if y < 100 then y + 2500 else y with hY
    have h1 : ¬ (1800 ≤ Y ∧ Y ≤ 2100) := fun hc => hout (Or.inl hc)
    have h2 : ¬ (2400 ≤ Y ∧ Y ≤ 2700) := fun hc => hout (Or.inr hc)
    rw [if_neg h1, if_neg h2]
  · intro hbe r h
    simp only [normalize_dmy] at h
    set Y := if y < 100 then y + 2500 else y with hY
    rw [if_neg (by omega : ¬ (1800 ≤ Y ∧ Y ≤ 2100)), if_pos hbe] at h
    simp only [mkNormalized, cond] at h
    split_ifs at h <;>
      first
        | (simp only [Except.ok.injEq] at h
           subst h
           exact ⟨rfl, rfl⟩)
        | exact nomatch h

/-! ## Zodiac-system selection (C7) -/

/-- `detect_zodiac_system` on a successful geocode, written out. -/
theorem detect_zodiac_system_some (lat lon : ℚ) (tz country : String) :
    detect_zodiac_system lat lon tz (some country) =
      if (fastpath_cities.any fun x => charsContain x.data (lowerChars tz.data)) = true
      then "sidereal"
      else if (sidereal_countries.any fun c =>
          charsContain c.data (lowerChars country.data)) = true
      then "sidereal" else "tropical" := rfl

/-- `detect_zodiac_system` on a failed geocode, written out. -/
theorem detect_zodiac_system_none (lat lon : ℚ) (tz : String) :
    detect_zodiac_system lat lon tz none =
      if (fastpath_cities.any fun x => charsContain x.data (lowerChars tz.data)) = true
      then "sidereal"
      else if charsContain "asia/".data (lowerChars tz.data) = true
      then "sidereal" else "tropical" := rfl

/-- The selector only ever answers "sidereal" or "tropical"; in particular no
branch raises. -/
theorem detect_zodiac_system_range (lat lon : ℚ) (tz : String) (geo : Option String) :
    detect_zodiac_system lat lon tz geo = "sidereal" ∨
      detect_zodiac_system lat lon tz geo = "tropical" := by
  cases geo with
  | some country =>
    rw [detect_zodiac_system_some]
    split_ifs <;> simp
  | none =>
    rw [detect_zodiac_system_none]
    split_ifs <;> simp

/-- C7: the selector is total (always "sidereal" or "tropical", never an
error); a fast-path city substring in the lower-cased timezone forces
"sidereal" for every geocoder outcome — the geocoder result is not consulted;
otherwise, a successful geocode answers "sidereal" exactly when the
lower-cased country matches the fixed country set, and a failed geocode
answers "sidereal" exactly when the lower-cased timezone contains "asia/". -/
theorem zodiac_selector_spec (lat lon : ℚ) (tz : String) (geo : Option String)
    (country : String) :
    (fastpath_cities.any (fun x => charsContain x.data (lowerChars tz.data)) = true →
      detect_zodiac_system lat lon tz geo = "sidereal") ∧
    (fastpath_cities.any (fun x => charsContain x.data (lowerChars tz.data)) = false →
      (detect_zodiac_system lat lon tz (some country) = "sidereal" ↔
        sidereal_countries.any
          (fun c => charsContain c.data (lowerChars country.data)) = true)) ∧
    (fastpath_cities.any (fun x => charsContain x.data (lowerChars tz.data)) = false →
      (detect_zodiac_system lat lon tz none = "sidereal" ↔
        charsContain "asia/".data (lowerChars tz.data) = true)) ∧
    (detect_zodiac_system lat lon tz geo = "sidereal" ∨
      detect_zodiac_system lat lon tz geo = "tropical") := by
  refine ⟨?_, ?_, ?_, detect_zodiac_system_range lat lon tz geo⟩
  · intro hfast
    cases geo with
    | some c2 => rw [detect_zodiac_system_some, if_pos hfast]
    | none => rw [detect_zodiac_system_none, if_pos hfast]
  · intro hfast
    rw [detect_zodiac_system_some, if_neg (by simp [hfast])]
    constructor
    · intro h
      by_contra hc
      rw [Bool.not_eq_true] at hc
      rw [if_neg (by simp [hc])] at h
      exact absurd h (by decide)
    · intro h
      rw [if_pos h]
  · intro hfast
    rw [detect_zodiac_system_none, if_neg (by simp [hfast])]
    constructor
    · intro h
      by_contra hc
      rw [Bool.not_eq_true] at hc
      rw [if_neg (by simp [hc])] at h
      exact absurd h (by decide)
    · intro h
      rw [if_pos h]

/-! ## Transit analysis (C5) -/

/-- Modelled from the spec (§4.5): `diff = |natalLon − transitLon|`, then
`sep = diff if diff ≤ 180 else 360 − diff`, the shorter angular distance. -/
def spec_sep (a b : ℚ) : ℚ :=
  if |a - b| ≤ 180 then |a - b| else 360 - |a - b|

/-- Modelled from the spec: the entry emitted for one body — a conjunction
message iff `sep ≤ 10`, an opposition message iff `170 ≤ sep ≤ 190`, nothing
otherwise. -/
def spec_transit_entry (p : String) (a b : ℚ) : Option String :=
  if spec_sep a b ≤ 10 then some (p ++ ": ดาวจรทับดาวเดิม (แรง)")
  else if 170 ≤ spec_sep a b ∧ spec_sep a b ≤ 190 then
    some (p ++ ": ดาวจรเล็งดาวเดิม (กดดัน)")
  else none

/-- Appending-an-option folds are filter-maps. -/
theorem foldl_append_eq_filterMap {α β : Type} (f : α → Option β) (l : List α)
    (acc : List β) :
    l.foldl (fun acc x => (f x).elim acc (fun y => acc ++ [y])) acc
      = acc ++ l.filterMap f := by
  induction l generalizing acc with
  | nil => simp
  | cons x xs ih =>
    simp only [List.foldl_cons, List.filterMap_cons]
    cases hf : f x with
    | none => rw [ih]; rfl
    | some y => rw [ih]; simp

/-- One transit-loop step appends exactly the spec's classification entry. -/
theorem transit_step_eq_spec (transit : List (String × ChartPoint))
    (acc : List String) (e : String × ChartPoint) :
    transit_step transit acc e =
      (match lookup_point transit e.1 with
       | some tv => spec_transit_entry e.1 e.2.lon tv.lon
       | none => none).elim acc (fun s => acc ++ [s]) := by
  unfold transit_step
  cases lookup_point transit e.1 with
  | none => rfl
  | some tv =>
    simp only [spec_transit_entry, spec_sep]
    split_ifs <;> rfl

/-- C5: the transit analysis is, entry for entry, the spec's classification:
it returns, in the natal chart's body order, the conjunction message for each
body (present in both charts) with `sep ≤ 10` and the opposition message for
each body with `170 ≤ sep ≤ 190`, omitting all other bodies; and for
longitudes in [0, 360) the folded `sep` is the shorter angular distance,
lying in [0, 180]. -/
theorem transit_analysis_follows_spec (natal transit : List (String × ChartPoint)) :
    (transit_interactions natal transit =
      natal.filterMap (fun e =>
        match lookup_point transit e.1 with
        | some tv => spec_transit_entry e.1 e.2.lon tv.lon
        | none => none)) ∧
    (∀ a b : ℚ, 0 ≤ a → a < 360 → 0 ≤ b → b < 360 →
      0 ≤ spec_sep a b ∧ spec_sep a b ≤ 180) := by
  constructor
  · unfold transit_interactions
    set g : String × ChartPoint → Option String := fun e =>
      match lookup_point transit e.1 with
      | some tv => spec_transit_entry e.1 e.2.lon tv.lon
      | none => none with hg
    have hfun : transit_step transit = (fun acc e =>
        (g e).elim acc (fun s => acc ++ [s])) := by
      funext acc e
      rw [hg]
      exact transit_step_eq_spec transit acc e
    rw [hfun, foldl_append_eq_filterMap g natal []]
    simp
  · intro a b ha0 ha1 hb0 hb1
    unfold spec_sep
    have habs : |a - b| < 360 := by
      rw [abs_lt]
      constructor <;> linarith
    have habs0 : 0 ≤ |a - b| := abs_nonneg _
    split_ifs with h
    · exact ⟨habs0, h⟩
    · constructor <;> linarith

/-! ## Match scoring (C6) -/

/-- Modelled from the spec (§4.6): points for one body — 25 for the same
sign name, else 15 when `|lon1 − lon2| < 30`, else 0. -/
def spec_pair_points (a b : ChartPoint) : Int :=
  if a.sign = b.sign then 25 else if |a.lon - b.lon| < 30 then 15 else 0

/-- Modelled from the spec: the comment emitted for one body, in the same
three cases. -/
def spec_pair_comment (p : String) (a b : ChartPoint) : String :=
  if a.sign = b.sign then p ++ ": อยู่ราศีเดียวกัน (เข้าใจกันง่าย)"
  else if |a.lon - b.lon| < 30 then p ++ ": ระยะใกล้กัน (สัมพันธ์ดี)"
  else p ++ ": ต่างราศี (ต้องปรับตัว)"

theorem spec_pair_points_bounds (a b : ChartPoint) :
    0 ≤ spec_pair_points a b ∧ spec_pair_points a b ≤ 25 := by
  unfold spec_pair_points
  split_ifs <;> omega

theorem spec_pair_points_of_ne {a b : ChartPoint} (h : a.sign ≠ b.sign) :
    spec_pair_points a b ≤ 15 := by
  unfold spec_pair_points
  rw [if_neg h]
  split_ifs <;> omega

/-- One scoring step adds exactly the spec's points and comment. -/
theorem match_step_some (c1 c2 : List (String × ChartPoint)) (p : String)
    (sc : Int × List String) (v1 v2 : ChartPoint)
    (hv1 : lookup_point c1 p = some v1) (hv2 : lookup_point c2 p = some v2) :
    match_step c1 c2 (some sc) p =
      some (sc.1 + spec_pair_points v1 v2, sc.2 ++ [spec_pair_comment p v1 v2]) := by
  unfold match_step
  rw [hv1, hv2]
  show (if v1.sign = v2.sign then
      some (sc.1 + 25, sc.2 ++ [p ++ ": อยู่ราศีเดียวกัน (เข้าใจกันง่าย)"])
    else if |v1.lon - v2.lon| < 30 then
      some (sc.1 + 15, sc.2 ++ [p ++ ": ระยะใกล้กัน (สัมพันธ์ดี)"])
    else some (sc.1, sc.2 ++ [p ++ ": ต่างราศี (ต้องปรับตัว)"])) = _
  unfold spec_pair_points spec_pair_comment
  by_cases hsg : v1.sign = v2.sign
  · rw [if_pos hsg, if_pos hsg, if_pos hsg]
  · rw [if_neg hsg, if_neg hsg, if_neg hsg]
    by_cases hlon : |v1.lon - v2.lon| < 30
    · rw [if_pos hlon, if_pos hlon, if_pos hlon]
    · rw [if_neg hlon, if_neg hlon, if_neg hlon]
      simp

/-- The match scorer on charts carrying the four fixed bodies: the sum of the
per-body awards, capped at 100, with the four comments in the fixed order. -/
theorem astro_match_eq (c1 c2 : List (String × ChartPoint))
    (s1 s2 s3 s4 t1 t2 t3 t4 : ChartPoint)
    (h1 : lookup_point c1 "Sun" = some s1) (h2 : lookup_point c1 "Moon" = some s2)
    (h3 : lookup_point c1 "Venus" = some s3) (h4 : lookup_point c1 "Mars" = some s4)
    (h5 : lookup_point c2 "Sun" = some t1) (h6 : lookup_point c2 "Moon" = some t2)
    (h7 : lookup_point c2 "Venus" = some t3) (h8 : lookup_point c2 "Mars" = some t4) :
    astro_match c1 c2 =
      some (min (spec_pair_points s1 t1 + spec_pair_points s2 t2 +
          spec_pair_points s3 t3 + spec_pair_points s4 t4) 100,
        [spec_pair_comment "Sun" s1 t1, spec_pair_comment "Moon" s2 t2,
         spec_pair_comment "Venus" s3 t3, spec_pair_comment "Mars" s4 t4]) := by
  unfold astro_match match_bodies
  simp only [List.foldl_cons, List.foldl_nil]
  rw [match_step_some c1 c2 "Sun" (0, []) s1 t1 h1 h5,
    match_step_some c1 c2 "Moon" _ s2 t2 h2 h6,
    match_step_some c1 c2 "Venus" _ s3 t3 h3 h7,
    match_step_some c1 c2 "Mars" _ s4 t4 h4 h8]
  simp [add_assoc]

/-- C6: for two charts carrying the fixed four bodies, the scorer awards 25
for a same-sign body, else 15 when the longitudes are within 30°, else 0,
emits the four comments in the fixed order, returns the sum capped at 100,
and every returned score lies in [0, 100]. -/
theorem match_scorer_spec (c1 c2 : List (String × ChartPoint))
    (s1 s2 s3 s4 t1 t2 t3 t4 : ChartPoint)
    (h1 : lookup_point c1 "Sun" = some s1) (h2 : lookup_point c1 "Moon" = some s2)
    (h3 : lookup_point c1 "Venus" = some s3) (h4 : lookup_point c1 "Mars" = some s4)
    (h5 : lookup_point c2 "Sun" = some t1) (h6 : lookup_point c2 "Moon" = some t2)
    (h7 : lookup_point c2 "Venus" = some t3) (h8 : lookup_point c2 "Mars" = some t4) :
    astro_match c1 c2 =
      some (min (spec_pair_points s1 t1 + spec_pair_points s2 t2 +
          spec_pair_points s3 t3 + spec_pair_points s4 t4) 100,
        [spec_pair_comment "Sun" s1 t1, spec_pair_comment "Moon" s2 t2,
         spec_pair_comment "Venus" s3 t3, spec_pair_comment "Mars" s4 t4]) ∧
    (∀ sc cs, astro_match c1 c2 = some (sc, cs) → 0 ≤ sc ∧ sc ≤ 100) := by
  have hmain := astro_match_eq c1 c2 s1 s2 s3 s4 t1 t2 t3 t4 h1 h2 h3 h4 h5 h6 h7 h8
  refine ⟨hmain, ?_⟩
  intro sc cs h
  rw [hmain] at h
  simp only [Option.some.injEq, Prod.mk.injEq] at h
  obtain ⟨hsc, -⟩ := h
  obtain ⟨ha0, ha1⟩ := spec_pair_points_bounds s1 t1
  obtain ⟨hb0, hb1⟩ := spec_pair_points_bounds s2 t2
  obtain ⟨hc0, hc1⟩ := spec_pair_points_bounds s3 t3
  obtain ⟨hd0, hd1⟩ := spec_pair_points_bounds s4 t4
  omega

def match_witness_c1 : List (String × ChartPoint) :=
  [("Sun", ⟨"Aries", 10⟩), ("Moon", ⟨"Taurus", 40⟩),
   ("Venus", ⟨"Leo", 130⟩), ("Mars", ⟨"Virgo", 170⟩)]

def match_witness_c2 : List (String × ChartPoint) :=
  [("Sun", ⟨"Aries", 12⟩), ("Moon", ⟨"Gemini", 65⟩),
   ("Venus", ⟨"Capricorn", 280⟩), ("Mars", ⟨"Virgo", 171⟩)]

/-- C6 witness: two concrete four-body charts scoring 25 + 15 + 0 + 25 = 65. -/
theorem match_scorer_spec_witness :
    (astro_match match_witness_c1 match_witness_c2 =
      some (min (spec_pair_points ⟨"Aries", 10⟩ ⟨"Aries", 12⟩ +
          spec_pair_points ⟨"Taurus", 40⟩ ⟨"Gemini", 65⟩ +
          spec_pair_points ⟨"Leo", 130⟩ ⟨"Capricorn", 280⟩ +
          spec_pair_points ⟨"Virgo", 170⟩ ⟨"Virgo", 171⟩) 100,
        [spec_pair_comment "Sun" ⟨"Aries", 10⟩ ⟨"Aries", 12⟩,
         spec_pair_comment "Moon" ⟨"Taurus", 40⟩ ⟨"Gemini", 65⟩,
         spec_pair_comment "Venus" ⟨"Leo", 130⟩ ⟨"Capricorn", 280⟩,
         spec_pair_comment "Mars" ⟨"Virgo", 170⟩ ⟨"Virgo", 171⟩]) ∧
    (∀ sc cs, astro_match match_witness_c1 match_witness_c2 = some (sc, cs) →
      0 ≤ sc ∧ sc ≤ 100)) ∧
    astro_match match_witness_c1 match_witness_c2 = some (65,
      ["Sun: อยู่ราศีเดียวกัน (เข้าใจกันง่าย)", "Moon: ระยะใกล้กัน (สัมพันธ์ดี)",
       "Venus: ต่างราศี (ต้องปรับตัว)", "Mars: อยู่ราศีเดียวกัน (เข้าใจกันง่าย)"]) := by
  have h := match_scorer_spec match_witness_c1 match_witness_c2
    ⟨"Aries", 10⟩ ⟨"Taurus", 40⟩ ⟨"Leo", 130⟩ ⟨"Virgo", 170⟩
    ⟨"Aries", 12⟩ ⟨"Gemini", 65⟩ ⟨"Capricorn", 280⟩ ⟨"Virgo", 171⟩
    rfl rfl rfl rfl rfl rfl rfl rfl
  refine ⟨h, ?_⟩
  rw [h.1]
  norm_num +decide [spec_pair_points, spec_pair_comment]

/-! ## Cross-system matching (C10) -/

/-- The four scored bodies of a chart, looked up positionally: each is
present with the sign and rounded longitude of its raw position. -/
theorem lookup_chart_sun (year month day : Int) (time timezone : String)
    (lat lon : ℚ) (sys : String) :
    lookup_point (compute_chart year month day time timezone lat lon sys) "Sun" =
      some ⟨get_sign_name (planet_position (solar_longitude year month day sys) 0
          (chart_offset time)) sys,
        round2 (planet_position (solar_longitude year month day sys) 0
          (chart_offset time))⟩ := rfl

theorem lookup_chart_moon (year month day : Int) (time timezone : String)
    (lat lon : ℚ) (sys : String) :
    lookup_point (compute_chart year month day time timezone lat lon sys) "Moon" =
      some ⟨get_sign_name (planet_position (solar_longitude year month day sys) 1
          (chart_offset time)) sys,
        round2 (planet_position (solar_longitude year month day sys) 1
          (chart_offset time))⟩ := rfl

theorem lookup_chart_venus (year month day : Int) (time timezone : String)
    (lat lon : ℚ) (sys : String) :
    lookup_point (compute_chart year month day time timezone lat lon sys) "Venus" =
      some ⟨get_sign_name (planet_position (solar_longitude year month day sys) 3
          (chart_offset time)) sys,
        round2 (planet_position (solar_longitude year month day sys) 3
          (chart_offset time))⟩ := rfl

theorem lookup_chart_mars (year month day : Int) (time timezone : String)
    (lat lon : ℚ) (sys : String) :
    lookup_point (compute_chart year month day time timezone lat lon sys) "Mars" =
      some ⟨get_sign_name (planet_position (solar_longitude year month day sys) 4
          (chart_offset time)) sys,
        round2 (planet_position (solar_longitude year month day sys) 4
          (chart_offset time))⟩ := rfl

/-- Any body looked up in a chart carries a sign name from the chart's own
sign-system table. -/
theorem chart_sign_table (year month day : Int) (time timezone : String)
    (lat lon : ℚ) (sys p : String) (v : ChartPoint)
    (h : lookup_point (compute_chart year month day time timezone lat lon sys) p = some v) :
    v.sign ∈ (if sys = "sidereal" then SIGNS_THAI else SIGNS_EN) := by
  unfold lookup_point at h
  cases hf : (compute_chart year month day time timezone lat lon sys).find?
      (fun e => e.1 == p) with
  | none => rw [hf] at h; exact nomatch h
  | some e =>
    rw [hf] at h
    simp only [Option.map] at h
    have hmem := List.mem_of_find?_eq_some hf
    have hforall := chart_point_raw year month day time timezone lat lon sys
    rw [List.forall_iff_forall_mem] at hforall
    obtain ⟨raw, hsign, -, -, -⟩ := hforall e hmem
    simp only [Option.some.injEq] at h
    rw [← h, hsign]
    exact get_sign_name_mem raw sys

/-- The Thai and Western sign-name tables share no name. -/
theorem thai_en_disjoint : ∀ s ∈ SIGNS_THAI, s ∉ SIGNS_EN := by decide

/-- Two looked-up points of charts computed under the two different systems
never agree on the sign name. -/
theorem cross_system_signs_differ {y1 m1 d1 : Int} {t1 tz1 : String} {lat1 lon1 : ℚ}
    {y2 m2 d2 : Int} {t2 tz2 : String} {lat2 lon2 : ℚ} {s1 s2 p q : String}
    {v1 v2 : ChartPoint}
    (hs1 : s1 = "sidereal" ∧ s2 = "tropical" ∨ s1 = "tropical" ∧ s2 = "sidereal")
    (h1 : lookup_point (compute_chart y1 m1 d1 t1 tz1 lat1 lon1 s1) p = some v1)
    (h2 : lookup_point (compute_chart y2 m2 d2 t2 tz2 lat2 lon2 s2) q = some v2) :
    v1.sign ≠ v2.sign := by
  have m1 := chart_sign_table y1 m1 d1 t1 tz1 lat1 lon1 s1 p v1 h1
  have m2 := chart_sign_table y2 m2 d2 t2 tz2 lat2 lon2 s2 q v2 h2
  rcases hs1 with ⟨hA, hB⟩ | ⟨hA, hB⟩ <;> subst hA <;> subst hB <;>
    simp only [if_pos rfl, if_neg (by decide : ¬ ("tropical" : String) = "sidereal")] at m1 m2
  · intro hc
    rw [hc] at m1
    exact thai_en_disjoint _ m1 m2
  · intro hc
    rw [← hc] at m2
    exact thai_en_disjoint _ m2 m1

/-- C10: `get_astro_match` detects the system separately per person; when the
two detected systems differ, every per-body comparison puts a Thai sign name
against a Western one — the tables are disjoint — so the 25-point same-sign
branch never fires, each body contributes at most 15 points, and the total
score is at most 60. -/
theorem cross_system_match_le_60 (y1 m1 d1 : Int) (t1 : String) (lat1 lon1 : ℚ)
    (y2 m2 d2 : Int) (t2 : String) (lat2 lon2 : ℚ)
    (tz : String) (geo1 geo2 : Option String)
    (hne : detect_zodiac_system lat1 lon1 tz geo1 ≠ detect_zodiac_system lat2 lon2 tz geo2) :
    ∃ sc cs,
      astro_match
          (compute_chart y1 m1 d1 t1 tz lat1 lon1 (detect_zodiac_system lat1 lon1 tz geo1))
          (compute_chart y2 m2 d2 t2 tz lat2 lon2 (detect_zodiac_system lat2 lon2 tz geo2)) =
        some (sc, cs) ∧ sc ≤ 60 ∧
      (∀ p v1 v2,
        lookup_point
            (compute_chart y1 m1 d1 t1 tz lat1 lon1 (detect_zodiac_system lat1 lon1 tz geo1))
            p = some v1 →
        lookup_point
            (compute_chart y2 m2 d2 t2 tz lat2 lon2 (detect_zodiac_system lat2 lon2 tz geo2))
            p = some v2 →
        v1.sign ≠ v2.sign) := by
  set s1 := detect_zodiac_system lat1 lon1 tz geo1 with hs1
  set s2 := detect_zodiac_system lat2 lon2 tz geo2 with hs2
  have hr1 := detect_zodiac_system_range lat1 lon1 tz geo1
  have hr2 := detect_zodiac_system_range lat2 lon2 tz geo2
  rw [← hs1] at hr1
  rw [← hs2] at hr2
  have hcases : s1 = "sidereal" ∧ s2 = "tropical" ∨ s1 = "tropical" ∧ s2 = "sidereal" := by
    rcases hr1 with h | h <;> rcases hr2 with h2 | h2 <;> simp_all
  have l1 := lookup_chart_sun y1 m1 d1 t1 tz lat1 lon1 s1
  have l2 := lookup_chart_moon y1 m1 d1 t1 tz lat1 lon1 s1
  have l3 := lookup_chart_venus y1 m1 d1 t1 tz lat1 lon1 s1
  have l4 := lookup_chart_mars y1 m1 d1 t1 tz lat1 lon1 s1
  have r1 := lookup_chart_sun y2 m2 d2 t2 tz lat2 lon2 s2
  have r2 := lookup_chart_moon y2 m2 d2 t2 tz lat2 lon2 s2
  have r3 := lookup_chart_venus y2 m2 d2 t2 tz lat2 lon2 s2
  have r4 := lookup_chart_mars y2 m2 d2 t2 tz lat2 lon2 s2
  have heq := astro_match_eq _ _ _ _ _ _ _ _ _ _ l1 l2 l3 l4 r1 r2 r3 r4
  refine ⟨_, _, heq, ?_, ?_⟩
  · have b1 := spec_pair_points_of_ne (cross_system_signs_differ hcases l1 r1)
    have b2 := spec_pair_points_of_ne (cross_system_signs_differ hcases l2 r2)
    have b3 := spec_pair_points_of_ne (cross_system_signs_differ hcases l3 r3)
    have b4 := spec_pair_points_of_ne (cross_system_signs_differ hcases l4 r4)
    omega
  · intro p v1 v2 hv1 hv2
    exact cross_system_signs_differ hcases hv1 hv2

/-- C10 witness: person 1 geocoded to Thailand (sidereal), person 2 with a
failed geocode under the "UTC" timezone (tropical): the score is capped at
60 and no body pair shares a sign. -/
theorem cross_system_match_le_60_witness :
    ∃ sc cs,
      astro_match
          (compute_chart 2025 10 27 "12:00" "UTC" (1375/100) (1005/10)
            (detect_zodiac_system (1375/100) (1005/10) "UTC" (some "Thailand")))
          (compute_chart 2025 11 3 "08:30" "UTC" (516/10) (-1/10)
            (detect_zodiac_system (516/10) (-1/10) "UTC" none)) =
        some (sc, cs) ∧ sc ≤ 60 ∧
      (∀ p v1 v2,
        lookup_point
            (compute_chart 2025 10 27 "12:00" "UTC" (1375/100) (1005/10)
              (detect_zodiac_system (1375/100) (1005/10) "UTC" (some "Thailand")))
            p = some v1 →
        lookup_point
            (compute_chart 2025 11 3 "08:30" "UTC" (516/10) (-1/10)
              (detect_zodiac_system (516/10) (-1/10) "UTC" none))
            p = some v2 →
        v1.sign ≠ v2.sign) :=
  cross_system_match_le_60 2025 10 27 "12:00" (1375/100) (1005/10)
    2025 11 3 "08:30" (516/10) (-1/10) "UTC" (some "Thailand") none (by decide)

end AstroWeekday
